import Mathlib

/-!
Shallow embedding of `langgraph_utils_cli/cli.py`: the event
classifier/renderer `print_chunk`, the decision prompt
`handle_interrupt_input`, and the two run drivers `run_sync_graph` /
`run_async_graph`.  Python dict values are modelled by the JSON-like
type `JValue`; fallible Python expressions (subscripts, attribute
lookups, iteration) return `Except String` where the string names the
Python exception that would be raised.  Console output is modelled as a
list of `RenderOp` values; its visual styling is out of scope.
-/

/-- A Python/JSON value as it appears in engine event payloads. -/
inductive JValue where
  | null
  | bool (b : Bool)
  | num (n : Int)
  | str (s : String)
  | arr (items : List JValue)
  | obj (fields : List (String × JValue))

/-- A raw event: the `Dict[str, Any]` chunk delivered by the stream. -/
abbrev RawEvent := List (String × JValue)

/-- First binding of a key in a Python dict (keys are unique in Python;
an association list models this with first-occurrence lookup). -/
def dictGet (d : List (String × JValue)) (k : String) : Option JValue :=
  match d.find? (fun p => p.1 == k) with
  | some p => some p.2
  | none => none

/-- Python `d.get(k, dflt)` on a dict. -/
def dictGetD (d : List (String × JValue)) (k : String) (dflt : JValue) : JValue :=
  match dictGet d k with
  | some v => v
  | none => dflt

/-- Python truthiness (`if x:`). -/
def pyTruthy : JValue → Bool
  | .null => false
  | .bool b => b
  | .num n => n != 0
  | .str s => !s.isEmpty
  | .arr xs => !xs.isEmpty
  | .obj fs => !fs.isEmpty

/-- Python `v.get(k, dflt)`: only dicts have `.get`; anything else
raises `AttributeError`. -/
def pyGet (v : JValue) (k : String) (dflt : JValue) : Except String JValue :=
  match v with
  | .obj fs => .ok (dictGetD fs k dflt)
  | _ => .error "AttributeError: object has no attribute get"

/-- Python subscript `v[k]` with a string key: dict lookup, raising
`KeyError` when the key is absent and `TypeError` on non-dicts. -/
def pySub (v : JValue) (k : String) : Except String JValue :=
  match v with
  | .obj fs =>
    match dictGet fs k with
    | some x => .ok x
    | none => .error ("KeyError: " ++ k)
  | _ => .error "TypeError: object is not subscriptable"

/-- Python iteration `for x in v`: lists yield their items, strings
their characters, dicts their keys; other values raise `TypeError`. -/
def pyIter : JValue → Except String (List JValue)
  | .arr xs => .ok xs
  | .str s => .ok (s.toList.map (fun ch => .str (String.mk [ch])))
  | .obj fs => .ok (fs.map (fun p => .str p.1))
  | _ => .error "TypeError: object is not iterable"

/-- Boolean success test for the `Except`-modelled Python expressions. -/
def eOk {α : Type} : Except String α → Bool
  | .ok _ => true
  | .error _ => false

/-- Test whether a chunk's `status` discriminant equals the string `s`
(Python `chunk.get("status") == s`: absent or non-string never equals). -/
def statusIs (s : String) (c : RawEvent) : Bool :=
  match dictGet c "status" with
  | some (.str t) => t == s
  | _ => false

/-- Lowercase hexadecimal digit. -/
def hexDigitChar (n : Nat) : Char :=
  if n < 10 then Char.ofNat (48 + n) else Char.ofNat (87 + n % 16)

/-- Two hex digits (for `\xHH` escapes in Python `repr`). -/
def hex2 (n : Nat) : String :=
  String.mk [hexDigitChar (n / 16 % 16), hexDigitChar (n % 16)]

/-- Four hex digits (for JSON `\uXXXX` escapes). -/
def hex4 (n : Nat) : String :=
  String.mk [hexDigitChar (n / 4096 % 16), hexDigitChar (n / 256 % 16),
             hexDigitChar (n / 16 % 16), hexDigitChar (n % 16)]

/-- Escaping of one character inside a single-quoted Python `repr`. -/
def reprEscapeChar (ch : Char) : String :=
  if ch.toNat = 92 then "\\\\"
  else if ch.toNat = 39 then "\\\x27"
  else if ch.toNat = 10 then "\\n"
  else if ch.toNat = 13 then "\\r"
  else if ch.toNat = 9 then "\\t"
  else if ch.toNat < 32 then "\\x" ++ hex2 ch.toNat
  else String.mk [ch]

/-- Python `repr` escaping of a string body. -/
def reprEscape (s : String) : String :=
  String.join (s.toList.map reprEscapeChar)

mutual
/-- Python `repr` of a value (model of the standard library behaviour;
always uses single quotes around strings). -/
def pyRepr : JValue → String
  | .null => "None"
  | .bool true => "True"
  | .bool false => "False"
  | .num n => toString n
  | .str s => "\x27" ++ reprEscape s ++ "\x27"
  | .arr xs => "[" ++ pyReprList xs ++ "]"
  | .obj fs => "\x7b" ++ pyReprFields fs ++ "\x7d"

/-- Comma-joined `repr`s of list items. -/
def pyReprList : List JValue → String
  | [] => ""
  | [x] => pyRepr x
  | x :: y :: rest => pyRepr x ++ ", " ++ pyReprList (y :: rest)

/-- Comma-joined `repr`s of dict entries. -/
def pyReprFields : List (String × JValue) → String
  | [] => ""
  | [(k, v)] => "\x27" ++ reprEscape k ++ "\x27: " ++ pyRepr v
  | (k, v) :: p :: rest =>
    "\x27" ++ reprEscape k ++ "\x27: " ++ pyRepr v ++ ", " ++ pyReprFields (p :: rest)
end

/-- Python `str()` as used by f-strings and `console.print`. -/
def pyStr (v : JValue) : String :=
  match v with
  | .str s => s
  | _ => pyRepr v

/-- JSON escaping of one character, `ensure_ascii` style as in
`json.dumps` (pass through printable ASCII, escape the rest). -/
def jsonEscapeChar (ch : Char) : String :=
  if ch.toNat = 34 then "\\\""
  else if ch.toNat = 92 then "\\\\"
  else if ch.toNat = 10 then "\\n"
  else if ch.toNat = 13 then "\\r"
  else if ch.toNat = 9 then "\\t"
  else if ch.toNat = 8 then "\\b"
  else if ch.toNat = 12 then "\\f"
  else if 32 ≤ ch.toNat ∧ ch.toNat ≤ 126 then String.mk [ch]
  else if ch.toNat ≤ 65535 then "\\u" ++ hex4 ch.toNat
  else
    "\\u" ++ hex4 (55296 + (ch.toNat - 65536) / 1024) ++
    "\\u" ++ hex4 (56320 + (ch.toNat - 65536) % 1024)

/-- JSON escaping of a string body. -/
def jsonEscape (s : String) : String :=
  String.join (s.toList.map jsonEscapeChar)

/-- `n` spaces. -/
def spaces (n : Nat) : String :=
  String.mk (List.replicate n ' ')

mutual
/-- `json.dumps` with an `indent`, at nesting level `lvl` (model of the
standard library: items one per line, keys in insertion order,
`", "\n"` item separator, `": "` key separator). -/
def jsonDumpVal (ind lvl : Nat) : JValue → String
  | .null => "null"
  | .bool true => "true"
  | .bool false => "false"
  | .num n => toString n
  | .str s => "\"" ++ jsonEscape s ++ "\""
  | .arr [] => "[]"
  | .arr (x :: xs) =>
    "[\n" ++ jsonDumpItems ind (lvl + 1) (x :: xs) ++ "\n" ++ spaces (ind * lvl) ++ "]"
  | .obj [] => "\x7b\x7d"
  | .obj (f :: fs) =>
    "\x7b\n" ++ jsonDumpFields ind (lvl + 1) (f :: fs) ++ "\n" ++ spaces (ind * lvl) ++ "\x7d"

/-- Indented, comma-newline separated array items. -/
def jsonDumpItems (ind lvl : Nat) : List JValue → String
  | [] => ""
  | [x] => spaces (ind * lvl) ++ jsonDumpVal ind lvl x
  | x :: y :: rest =>
    spaces (ind * lvl) ++ jsonDumpVal ind lvl x ++ ",\n" ++ jsonDumpItems ind lvl (y :: rest)

/-- Indented, comma-newline separated object entries. -/
def jsonDumpFields (ind lvl : Nat) : List (String × JValue) → String
  | [] => ""
  | [(k, v)] =>
    spaces (ind * lvl) ++ "\"" ++ jsonEscape k ++ "\": " ++ jsonDumpVal ind lvl v
  | (k, v) :: p :: rest =>
    spaces (ind * lvl) ++ "\"" ++ jsonEscape k ++ "\": " ++ jsonDumpVal ind lvl v ++
    ",\n" ++ jsonDumpFields ind lvl (p :: rest)
end

/-- `json.dumps(v, indent=indent)`. -/
def json_dumps (v : JValue) (indent : Nat) : String :=
  jsonDumpVal indent 0 v

/-- One console output operation produced by the renderer.  `text` is a
`console.print` call (`newline = false` models `end=""`); the two table
constructors and `panel` record the information content of the Rich
renderables (styling is out of scope). -/
inductive RenderOp where
  | text (s : String) (newline : Bool)
  | toolTable (title : String) (rows : List (String × String))
  | todoTable (rows : List (String × String))
  | panel (content : String) (title : String) (borderStyle : String)

/-- The text-delta branch of `print_chunk` (`"chunk" in chunk`):
verbose mode prints a node-prefixed line, normal mode prints the
fragment with no newline. -/
def chunkTextOps (c : RawEvent) (verbose : Bool) : List RenderOp :=
  let text := dictGetD c "chunk" .null
  let node := dictGetD c "node" (.str "unknown")
  if verbose then
    [.text ("[dim][" ++ pyStr node ++ "][/dim] " ++ pyStr text) true]
  else
    [.text (pyStr text) false]

/-- One `Tool Call` table: title from `tool_call["name"]` (raising
`KeyError`/`TypeError` on malformed entries), rows ID (`.get` with
default `"N/A"`), Name, pretty-printed Args, and the node row only in
verbose mode. -/
def toolCallTable (verbose : Bool) (node : JValue) (tc : JValue) : Except String RenderOp :=
  match pySub tc "name" with
  | .error e => .error e
  | .ok name =>
    match pyGet tc "id" (.str "N/A") with
    | .error e => .error e
    | .ok idv =>
      match pyGet tc "args" (.obj []) with
      | .error e => .error e
      | .ok args =>
        .ok (.toolTable ("Tool Call: " ++ pyStr name)
          ([("ID", pyStr idv), ("Name", pyStr name), ("Args", json_dumps args 2)] ++
           (if verbose then [("Node", pyStr node)] else [])))

/-- The `for tool_call in chunk["tool_calls"]` loop. -/
def toolCallTables (verbose : Bool) (node : JValue) : List JValue → Except String (List RenderOp)
  | [] => .ok []
  | tc :: rest =>
    match toolCallTable verbose node tc with
    | .error e => .error e
    | .ok t =>
      match toolCallTables verbose node rest with
      | .error e => .error e
      | .ok ts => .ok (t :: ts)

/-- Status glyph lookup `{...}.get(status, unknown-glyph)`: unknown
hashable statuses map to the fallback glyph; unhashable values (lists,
dicts) raise `TypeError` as Python dict keys. -/
def glyphFor : JValue → Except String String
  | .arr _ => .error "TypeError: unhashable type"
  | .obj _ => .error "TypeError: unhashable type"
  | .str s =>
    .ok (if s = "pending" then "⏳"
         else if s = "in_progress" then "🔄"
         else if s = "completed" then "✅"
         else "❓")
  | _ => .ok "❓"

/-- One row of the todo table: glyph plus status text, and the content
(`todo.get`, so non-dict items raise `AttributeError`). -/
def todoRow (todo : JValue) : Except String (String × String) :=
  match pyGet todo "status" (.str "pending") with
  | .error e => .error e
  | .ok status =>
    match glyphFor status with
    | .error e => .error e
    | .ok icon =>
      match pyGet todo "content" (.str "N/A") with
      | .error e => .error e
      | .ok content => .ok (icon ++ " " ++ pyStr status, pyStr content)

/-- The `for todo in todos` loop. -/
def todoRows : List JValue → Except String (List (String × String))
  | [] => .ok []
  | todo :: rest =>
    match todoRow todo with
    | .error e => .error e
    | .ok r =>
      match todoRows rest with
      | .error e => .error e
      | .ok rs => .ok (r :: rs)

/-- Lines appended for the `k`-th (1-based) action request of an
interrupt panel: tool (`action["tool"]`), call id
(`action["tool_call_id"]`), optional description, and args pretty
printed with indent 6. -/
def actionLines (k : Nat) (action : JValue) : Except String (List String) :=
  match pySub action "tool" with
  | .error e => .error e
  | .ok tool =>
    match pySub action "tool_call_id" with
    | .error e => .error e
    | .ok cid =>
      match pyGet action "description" .null with
      | .error e => .error e
      | .ok desc =>
        match pyGet action "args" (.obj []) with
        | .error e => .error e
        | .ok args =>
          .ok (["\n" ++ toString k ++ ". Tool: " ++ pyStr tool,
                "   ID: " ++ pyStr cid] ++
               (if pyTruthy desc then ["   Description: " ++ pyStr desc] else []) ++
               ["   Args: " ++ json_dumps args 6])

/-- The `for i, action in enumerate(action_requests)` loop. -/
def actionsLines (k : Nat) : List JValue → Except String (List String)
  | [] => .ok []
  | a :: rest =>
    match actionLines k a with
    | .error e => .error e
    | .ok ls =>
      match actionsLines (k + 1) rest with
      | .error e => .error e
      | .ok more => .ok (ls ++ more)

/-- `ls` must all be strings for `", ".join(ls)`. -/
def allStrs : List JValue → Except String (List String)
  | [] => .ok []
  | .str s :: rest =>
    match allStrs rest with
    | .error e => .error e
    | .ok r => .ok (s :: r)
  | _ :: _ => .error "TypeError: sequence item: expected str instance"

/-- Python `sep.join(v)`: iterate `v` and require string items. -/
def pyJoin (sep : String) (v : JValue) : Except String String :=
  match pyIter v with
  | .error e => .error e
  | .ok xs =>
    match allStrs xs with
    | .error e => .error e
    | .ok strs => .ok (String.intercalate sep strs)

/-- Lines for the `k`-th (1-based) review config: the comma-joined
`allowed_decisions`. -/
def reviewLines (k : Nat) (config : JValue) : Except String (List String) :=
  match pyGet config "allowed_decisions" (.arr []) with
  | .error e => .error e
  | .ok allowed =>
    match pyJoin ", " allowed with
    | .error e => .error e
    | .ok joined => .ok (["\n" ++ toString k ++ ". Allowed decisions: " ++ joined])

/-- The `for i, config in enumerate(review_configs)` loop. -/
def reviewsLines (k : Nat) : List JValue → Except String (List String)
  | [] => .ok []
  | cfg :: rest =>
    match reviewLines k cfg with
    | .error e => .error e
    | .ok ls =>
      match reviewsLines (k + 1) rest with
      | .error e => .error e
      | .ok more => .ok (ls ++ more)

/-- The `if action_requests:` block of the interrupt panel. -/
def actionsPart (action_requests : JValue) : Except String (List String) :=
  if pyTruthy action_requests then
    match pyIter action_requests with
    | .error e => .error e
    | .ok xs =>
      match actionsLines 1 xs with
      | .error e => .error e
      | .ok ls => .ok ("[bold yellow]Action Requests:[/bold yellow]" :: ls)
  else .ok []

/-- The `if review_configs:` block of the interrupt panel. -/
def reviewsPart (review_configs : JValue) : Except String (List String) :=
  if pyTruthy review_configs then
    match pyIter review_configs with
    | .error e => .error e
    | .ok xs =>
      match reviewsLines 1 xs with
      | .error e => .error e
      | .ok ls => .ok ("\n[bold cyan]Review Configs:[/bold cyan]" :: ls)
  else .ok []

/-- The interrupt panel: action requests (when truthy) and review
configs (when truthy), joined by newlines inside a yellow panel. -/
def interruptPanel (c : RawEvent) : Except String RenderOp :=
  let interrupt_data := dictGetD c "interrupt" (.obj [])
  match pyGet interrupt_data "action_requests" (.arr []) with
  | .error e => .error e
  | .ok action_requests =>
    match pyGet interrupt_data "review_configs" (.arr []) with
    | .error e => .error e
    | .ok review_configs =>
      match actionsPart action_requests with
      | .error e => .error e
      | .ok lines1 =>
        match reviewsPart review_configs with
        | .error e => .error e
        | .ok lines2 =>
          .ok (.panel (String.intercalate "\n" (lines1 ++ lines2)) "⚠️  Interrupt" "yellow")

/-- `print_chunk(chunk, verbose)`: dispatch on the `status`
discriminant; inside `streaming`, on which of the keys `chunk`,
`tool_calls`, `todo_list` is present (in that priority order);
unrecognized shapes produce no output. -/
def print_chunk (c : RawEvent) (verbose : Bool) : Except String (List RenderOp) :=
  if statusIs "streaming" c then
    if (dictGet c "chunk").isSome then
      .ok (chunkTextOps c verbose)
    else if (dictGet c "tool_calls").isSome then
      let node := dictGetD c "node" (.str "unknown")
      match pyIter (dictGetD c "tool_calls" .null) with
      | .error e => .error e
      | .ok xs => toolCallTables verbose node xs
    else if (dictGet c "todo_list").isSome then
      match pyIter (dictGetD c "todo_list" .null) with
      | .error e => .error e
      | .ok xs =>
        match todoRows xs with
        | .error e => .error e
        | .ok rows => .ok [.todoTable rows]
    else .ok []
  else if statusIs "interrupt" c then
    match interruptPanel c with
    | .error e => .error e
    | .ok p => .ok [p]
  else if statusIs "complete" c then
    .ok [.text "\n[bold green]✓ Complete[/bold green]" true]
  else if statusIs "error" c then
    .ok [.panel ("[bold red]" ++ pyStr (dictGetD c "error" (.str "Unknown error")) ++ "[/bold red]")
           "Error" "red"]
  else .ok []

/-- Result of `handle_interrupt_input`: either a Decision value to
resume with, or `sys.exit(code)` terminating the whole process. -/
inductive HandleResult where
  | decision (d : JValue)
  | exited (code : Nat)

/-- The fixed menu printed before the choice prompt. -/
def menuOps : List RenderOp :=
  [.text "\n[bold]How would you like to proceed?[/bold]" true,
   .text "1. Approve all actions" true,
   .text "2. Reject all actions" true,
   .text "3. Provide custom decision (JSON)" true,
   .text "4. Exit" true]

/-- The hint printed before the free-form JSON prompt of choice 3. -/
def jsonPromptOp : RenderOp :=
  .text "Enter your decision as JSON (e.g., \x7b\x27type\x27: \x27approve\x27\x7d):" true

/-- `handle_interrupt_input(interrupt_data)`.  `loads` models
`json.loads` (a decode failure carries the exception message); `choice`
is the integer read by `click.prompt` (its default is supplied by the
caller's input oracle) and `jsonText` the free-form line read for
choice 3.  Choices other than 1, 2 and 3 hit the final `else:
sys.exit(0)`.  The two leading `.get` calls on `interrupt_data` are
dead stores in the source but can still raise on non-dict input. -/
def handle_interrupt_input (loads : String → Except String JValue)
    (choice : Int) (jsonText : String) (interrupt_data : JValue) :
    Except String (List RenderOp × HandleResult) :=
  match pyGet interrupt_data "action_requests" (.arr []) with
  | .error e => .error e
  | .ok _action_requests =>
    match pyGet interrupt_data "review_configs" (.arr []) with
    | .error e => .error e
    | .ok _review_configs =>
      if choice = 1 then
        .ok (menuOps, .decision (.obj [("type", .str "approve")]))
      else if choice = 2 then
        .ok (menuOps, .decision (.obj [("type", .str "reject")]))
      else if choice = 3 then
        match loads jsonText with
        | .ok v => .ok (menuOps ++ [jsonPromptOp], .decision v)
        | .error e =>
          .ok (menuOps ++ [jsonPromptOp, .text ("[red]Invalid JSON: " ++ e ++ "[/red]") true],
               .decision (.obj [("type", .str "reject")]))
      else
        .ok (menuOps, .exited 0)

/-- The engine invocation payload built by `prepare_agent_input`. -/
inductive InputData where
  | fresh (message : String)
  | resume (decisions : List JValue)

/-- Modelled from the spec: `prepare_agent_input` lives in
`langgraph_utils_cli/utils.py`, which is not part of `src/`.  §4.5
InputBuilder: exactly one of `message` / `decisions` must be supplied
(violation is a caller-contract error), and the output deterministically
encodes which variant was supplied. -/
def prepare_agent_input (message : Option String) (decisions : Option (List JValue)) :
    Option InputData :=
  match message, decisions with
  | some m, none => some (.fresh m)
  | none, some ds => some (.resume ds)
  | _, _ => none

/-- One observable step of a driver run: an engine (stream) invocation,
the rendering of one chunk, or a decision-prompt invocation together
with its console output. -/
inductive TraceItem where
  | engineCall (input : InputData)
  | rendered (ops : List RenderOp)
  | promptCall (data : JValue) (ops : List RenderOp)

/-- Terminal state of a driver run. -/
inductive RunOutcome where
  | completed
  | exited (code : Nat)
  | pyError (msg : String)
  | fuelOut

/-- The `for chunk in stream...: print_chunk(...); if status ==
"interrupt": ...` body shared by both drivers: renders each chunk in
order and threads the `has_interrupt` / `interrupt_data` locals; a
rendering exception aborts the pass (the partially emitted output of
the failing chunk is not modelled; no claim inspects it). -/
def processStream (verbose : Bool) :
    List RawEvent → Bool → JValue → List TraceItem × Except String (Bool × JValue)
  | [], hasInt, intData => ([], .ok (hasInt, intData))
  | c :: rest, hasInt, intData =>
    match print_chunk c verbose with
    | .error e => ([], .error e)
    | .ok ops =>
      let hasInt2 := hasInt || statusIs "interrupt" c
      let intData2 := if statusIs "interrupt" c then dictGetD c "interrupt" (.obj []) else intData
      match processStream verbose rest hasInt2 intData2 with
      | (tr, res) => (.rendered ops :: tr, res)

/-- The `while True:` loop of `run_sync_graph`, with explicit fuel for
the (possibly unbounded) resume loop.  `engine` models
`stream_graph_updates(graph, input_data, config, stream_mode)` with the
graph, config and stream mode absorbed into the function; `userInput`
supplies the `(choice, json_text)` read by the `n`-th prompt
invocation. -/
def syncLoop (engine : InputData → List RawEvent) (loads : String → Except String JValue)
    (userInput : Nat → Int × String) (interactive verbose : Bool) :
    Nat → Nat → InputData → List TraceItem × RunOutcome
  | 0, _, _ => ([], .fuelOut)
  | fuel + 1, pIdx, input_data =>
    match processStream verbose (engine input_data) false .null with
    | (tr, .error e) => (.engineCall input_data :: tr, .pyError e)
    | (tr, .ok (hasInt, intData)) =>
      if hasInt && interactive then
        match handle_interrupt_input loads (userInput pIdx).1 (userInput pIdx).2 intData with
        | .error e => (.engineCall input_data :: tr, .pyError e)
        | .ok (ops, .exited code) =>
          (.engineCall input_data :: (tr ++ [.promptCall intData ops]), .exited code)
        | .ok (ops, .decision d) =>
          match prepare_agent_input none (some [d]) with
          | some input2 =>
            match syncLoop engine loads userInput interactive verbose fuel (pIdx + 1) input2 with
            | (tr2, out) =>
              (.engineCall input_data :: (tr ++ (.promptCall intData ops :: tr2)), out)
          | none =>
            (.engineCall input_data :: (tr ++ [.promptCall intData ops]), .pyError "ValueError")
      else
        (.engineCall input_data :: tr, .completed)

/-- `run_sync_graph(graph, message, config, interactive, verbose,
stream_mode)`: build the fresh-message input and run the blocking
loop. -/
def run_sync_graph (fuel : Nat) (engine : InputData → List RawEvent)
    (loads : String → Except String JValue) (userInput : Nat → Int × String)
    (message : String) (interactive verbose : Bool) : List TraceItem × RunOutcome :=
  match prepare_agent_input (some message) none with
  | some input_data => syncLoop engine loads userInput interactive verbose fuel 0 input_data
  | none => ([], .pyError "ValueError")

/-- The `while True:` loop of `run_async_graph`.  The Python body is
identical to the synchronous one except that the next event is awaited
(`async for` over `astream_graph_updates`); under a deterministic
engine the cooperative suspension has no observable effect, so the
transcription coincides line by line with `syncLoop`. -/
def asyncLoop (engine : InputData → List RawEvent) (loads : String → Except String JValue)
    (userInput : Nat → Int × String) (interactive verbose : Bool) :
    Nat → Nat → InputData → List TraceItem × RunOutcome
  | 0, _, _ => ([], .fuelOut)
  | fuel + 1, pIdx, input_data =>
    match processStream verbose (engine input_data) false .null with
    | (tr, .error e) => (.engineCall input_data :: tr, .pyError e)
    | (tr, .ok (hasInt, intData)) =>
      if hasInt && interactive then
        match handle_interrupt_input loads (userInput pIdx).1 (userInput pIdx).2 intData with
        | .error e => (.engineCall input_data :: tr, .pyError e)
        | .ok (ops, .exited code) =>
          (.engineCall input_data :: (tr ++ [.promptCall intData ops]), .exited code)
        | .ok (ops, .decision d) =>
          match prepare_agent_input none (some [d]) with
          | some input2 =>
            match asyncLoop engine loads userInput interactive verbose fuel (pIdx + 1) input2 with
            | (tr2, out) =>
              (.engineCall input_data :: (tr ++ (.promptCall intData ops :: tr2)), out)
          | none =>
            (.engineCall input_data :: (tr ++ [.promptCall intData ops]), .pyError "ValueError")
      else
        (.engineCall input_data :: tr, .completed)

/-- `run_async_graph(...)`: same entry shape as the synchronous
driver, driving the suspending loop. -/
def run_async_graph (fuel : Nat) (engine : InputData → List RawEvent)
    (loads : String → Except String JValue) (userInput : Nat → Int × String)
    (message : String) (interactive verbose : Bool) : List TraceItem × RunOutcome :=
  match prepare_agent_input (some message) none with
  | some input_data => asyncLoop engine loads userInput interactive verbose fuel 0 input_data
  | none => ([], .pyError "ValueError")

/-- The output `print_chunk` emits for a chunk that renders without
raising (empty for the error case; used only under a success
hypothesis). -/
def renderOps (verbose : Bool) (c : RawEvent) : List RenderOp :=
  match print_chunk c verbose with
  | .ok ops => ops
  | .error _ => []

/-- The trace of one fully rendered pass over a stream. -/
def renderTrace (verbose : Bool) (s : List RawEvent) : List TraceItem :=
  s.map (fun c => .rendered (renderOps verbose c))

/-- Every chunk of the stream renders without raising. -/
def streamOk (verbose : Bool) (s : List RawEvent) : Bool :=
  s.all (fun c => eOk (print_chunk c verbose))

/-- No chunk of the stream has `status == "interrupt"`. -/
def noInterrupt (s : List RawEvent) : Bool :=
  s.all (fun c => !statusIs "interrupt" c)

/-- The `interrupt_data` local after a pass: the payload of the last
interrupt-status chunk, or the fold's start value. -/
def lastIntData (dflt : JValue) : List RawEvent → JValue
  | [] => dflt
  | c :: rest =>
    lastIntData (if statusIs "interrupt" c then dictGetD c "interrupt" (.obj []) else dflt) rest

/-- Number of decision-prompt invocations in a trace. -/
def promptCount : List TraceItem → Nat
  | [] => 0
  | .promptCall _ _ :: rest => promptCount rest + 1
  | _ :: rest => promptCount rest

/-- The resume inputs of all engine invocations in a trace, in order. -/
def resumeCalls : List TraceItem → List InputData
  | [] => []
  | .engineCall (.resume ds) :: rest => .resume ds :: resumeCalls rest
  | _ :: rest => resumeCalls rest

/-- Number of engine (stream) invocations in a trace: one per pass of
the driver loop. -/
def engineCallCount : List TraceItem → Nat
  | [] => 0
  | .engineCall _ :: rest => engineCallCount rest + 1
  | _ :: rest => engineCallCount rest

/-- Removing a key from a dict (for stating that a payload is ignored). -/
def eraseKey (d : RawEvent) (k : String) : RawEvent :=
  d.filter (fun p => !(p.1 == k))

/-- Total getter on a `JValue` known to be a dict (default otherwise);
used to state conclusions about values fetched by `[...]`/`.get`. -/
def jGetD (v : JValue) (k : String) (dflt : JValue) : JValue :=
  match v with
  | .obj fs => dictGetD fs k dflt
  | _ => dflt

/-- A `tool_calls` entry the renderer accepts: a dict carrying `name`. -/
def toolCallOk : JValue → Bool
  | .obj fs => (dictGet fs "name").isSome
  | _ => false

/-- A `todo_list` entry the renderer accepts: a dict whose `status`
value (default `"pending"`) is hashable. -/
def todoOk : JValue → Bool
  | .obj fs =>
    match dictGetD fs "status" (.str "pending") with
    | .arr _ => false
    | .obj _ => false
    | _ => true
  | _ => false

/-- An `action_requests` entry the renderer accepts: a dict carrying
`tool` and `tool_call_id`. -/
def actionOk : JValue → Bool
  | .obj fs => (dictGet fs "tool").isSome && (dictGet fs "tool_call_id").isSome
  | _ => false

/-- A Boolean string test. -/
def isStrVal : JValue → Bool
  | .str _ => true
  | _ => false

/-- A `review_configs` entry the renderer accepts: a dict whose
`allowed_decisions` (default `[]`) can be `", ".join`-ed. -/
def reviewOk : JValue → Bool
  | .obj fs =>
    match pyIter (dictGetD fs "allowed_decisions" (.arr [])) with
    | .ok xs => xs.all isStrVal
    | .error _ => false
  | _ => false

/-- The payload is iterable and every element satisfies `ok`. -/
def iterAllOk (ok : JValue → Bool) (v : JValue) : Bool :=
  match pyIter v with
  | .ok xs => xs.all ok
  | .error _ => false

/-- As `iterAllOk`, but vacuous when the payload is falsy (the source
only iterates truthy interrupt payloads). -/
def truthyIterOk (ok : JValue → Bool) (v : JValue) : Bool :=
  if pyTruthy v then iterAllOk ok v else true

/-- The well-formed domain of `print_chunk`: exactly the raw events on
which every fallible access inside the taken branch succeeds. -/
def eventWellFormed (c : RawEvent) : Bool :=
  if statusIs "streaming" c then
    if (dictGet c "chunk").isSome then true
    else if (dictGet c "tool_calls").isSome then
      iterAllOk toolCallOk (dictGetD c "tool_calls" .null)
    else if (dictGet c "todo_list").isSome then
      iterAllOk todoOk (dictGetD c "todo_list" .null)
    else true
  else if statusIs "interrupt" c then
    match dictGetD c "interrupt" (.obj []) with
    | .obj fs =>
      truthyIterOk actionOk (dictGetD fs "action_requests" (.arr [])) &&
      truthyIterOk reviewOk (dictGetD fs "review_configs" (.arr []))
    | _ => false
  else true

theorem promptCount_append (a b : List TraceItem) :
    promptCount (a ++ b) = promptCount a + promptCount b := by
  induction a with
  | nil => simp [promptCount]
  | cons x rest ih =>
    cases x with
    | engineCall i => simp [promptCount, ih]
    | rendered ops => simp [promptCount, ih]
    | promptCall d ops => simp [promptCount, ih]; omega

theorem promptCount_renderTrace (v : Bool) (s : List RawEvent) :
    promptCount (renderTrace v s) = 0 := by
  induction s with
  | nil => simp [renderTrace, promptCount]
  | cons c rest ih => simpa [renderTrace, promptCount] using ih

theorem resumeCalls_append (a b : List TraceItem) :
    resumeCalls (a ++ b) = resumeCalls a ++ resumeCalls b := by
  induction a with
  | nil => simp [resumeCalls]
  | cons x rest ih =>
    cases x with
    | engineCall i => cases i <;> simp [resumeCalls, ih]
    | rendered ops => simp [resumeCalls, ih]
    | promptCall d ops => simp [resumeCalls, ih]

theorem resumeCalls_renderTrace (v : Bool) (s : List RawEvent) :
    resumeCalls (renderTrace v s) = [] := by
  induction s with
  | nil => simp [renderTrace, resumeCalls]
  | cons c rest ih => simpa [renderTrace, resumeCalls] using ih

theorem engineCallCount_append (a b : List TraceItem) :
    engineCallCount (a ++ b) = engineCallCount a + engineCallCount b := by
  induction a with
  | nil => simp [engineCallCount]
  | cons x rest ih =>
    cases x with
    | engineCall i => simp [engineCallCount, ih]; omega
    | rendered ops => simp [engineCallCount, ih]
    | promptCall d ops => simp [engineCallCount, ih]

theorem engineCallCount_renderTrace (v : Bool) (s : List RawEvent) :
    engineCallCount (renderTrace v s) = 0 := by
  induction s with
  | nil => simp [renderTrace, engineCallCount]
  | cons c rest ih => simpa [renderTrace, engineCallCount] using ih

/-- A pass whose chunks all render successfully produces exactly the
in-order render trace, reports whether an interrupt-status chunk was
seen, and remembers the last interrupt payload. -/
theorem processStream_clean (v : Bool) (s : List RawEvent) (h : Bool) (i : JValue)
    (hok : streamOk v s = true) :
    processStream v s h i =
      (renderTrace v s,
       .ok (h || s.any (fun c => statusIs "interrupt" c), lastIntData i s)) := by
  induction s generalizing h i with
  | nil => simp [processStream, renderTrace, lastIntData]
  | cons c rest ih =>
    simp only [streamOk, List.all_cons, Bool.and_eq_true] at hok
    obtain ⟨h1, h2⟩ := hok
    cases hpc : print_chunk c v with
    | error e => rw [hpc] at h1; simp [eOk] at h1
    | ok ops =>
      have hrest : streamOk v rest = true := h2
      simp only [processStream, hpc]
      rw [ih _ _ hrest]
      simp [renderTrace, renderOps, hpc, lastIntData, List.any_cons, Bool.or_assoc]

/-- The suspending loop and the blocking loop compute identically for
every fuel, prompt index and input. -/
theorem asyncLoop_eq_syncLoop (engine : InputData → List RawEvent)
    (loads : String → Except String JValue) (userInput : Nat → Int × String)
    (interactive verbose : Bool) :
    ∀ fuel pIdx inp, asyncLoop engine loads userInput interactive verbose fuel pIdx inp =
      syncLoop engine loads userInput interactive verbose fuel pIdx inp := by
  intro fuel
  induction fuel with
  | zero => intro pIdx inp; rfl
  | succ n ih =>
    intro pIdx inp
    simp only [asyncLoop, syncLoop, ih]

/-- The two driver entry points agree on every input (helper shared by
the per-claim theorems below). -/
theorem run_async_eq_run_sync (fuel : Nat) (engine : InputData → List RawEvent)
    (loads : String → Except String JValue) (userInput : Nat → Int × String)
    (message : String) (interactive verbose : Bool) :
    run_async_graph fuel engine loads userInput message interactive verbose =
      run_sync_graph fuel engine loads userInput message interactive verbose := by
  simp only [run_async_graph, run_sync_graph, prepare_agent_input]
  exact asyncLoop_eq_syncLoop engine loads userInput interactive verbose fuel 0 (.fresh message)

/-- C2: for every sequence of raw events (a deterministic engine
stream per input) and every sequence of operator decisions, the
synchronous and asynchronous drivers perform identical state
transitions and produce identical traces and outcomes; they differ
only in how the next event is obtained. -/
theorem C2_sync_async_equivalent (fuel : Nat) (engine : InputData → List RawEvent)
    (loads : String → Except String JValue) (userInput : Nat → Int × String)
    (message : String) (interactive verbose : Bool) :
    run_async_graph fuel engine loads userInput message interactive verbose =
      run_sync_graph fuel engine loads userInput message interactive verbose :=
  run_async_eq_run_sync fuel engine loads userInput message interactive verbose

theorem any_interrupt_eq_false (s : List RawEvent) (h : noInterrupt s = true) :
    (s.any fun c => statusIs "interrupt" c) = false := by
  simp only [noInterrupt, List.all_eq_true] at h
  simp only [List.any_eq_false]
  intro c hc
  have hp := h c hc
  simpa using hp

theorem lastIntData_noInterrupt (s : List RawEvent) (i : JValue)
    (h : noInterrupt s = true) : lastIntData i s = i := by
  induction s generalizing i with
  | nil => rfl
  | cons c rest ih =>
    simp only [noInterrupt, List.all_cons, Bool.and_eq_true] at h
    obtain ⟨h1, h2⟩ := h
    have hc : statusIs "interrupt" c = false := by simpa using h1
    simp only [lastIntData, hc, if_neg Bool.false_ne_true]
    exact ih i h2

theorem lastIntData_append (a b : List RawEvent) (i : JValue) :
    lastIntData i (a ++ b) = lastIntData (lastIntData i a) b := by
  induction a generalizing i with
  | nil => rfl
  | cons c rest ih =>
    simp only [List.cons_append, lastIntData, List.append_eq]
    exact ih _

/-- C4: a stream with no interrupt-status event makes the driver exit
after exactly one pass (one engine call, fully rendered, then
`Done`), with no decision-prompt invocation, for either value of the
interactive flag, and identically for the async driver. -/
theorem C4_no_interrupt_single_pass (fuel : Nat) (engine : InputData → List RawEvent)
    (loads : String → Except String JValue) (userInput : Nat → Int × String)
    (message : String) (interactive verbose : Bool)
    (h1 : noInterrupt (engine (.fresh message)) = true)
    (h2 : streamOk verbose (engine (.fresh message)) = true) :
    run_sync_graph (fuel + 1) engine loads userInput message interactive verbose =
      (.engineCall (.fresh message) :: renderTrace verbose (engine (.fresh message)),
       .completed)
    ∧ promptCount
        (.engineCall (.fresh message) :: renderTrace verbose (engine (.fresh message))) = 0
    ∧ engineCallCount
        (.engineCall (.fresh message) :: renderTrace verbose (engine (.fresh message))) = 1
    ∧ run_async_graph (fuel + 1) engine loads userInput message interactive verbose =
        run_sync_graph (fuel + 1) engine loads userInput message interactive verbose := by
  refine ⟨?_, ?_, ?_, run_async_eq_run_sync _ _ _ _ _ _ _⟩
  · simp only [run_sync_graph, prepare_agent_input, syncLoop]
    rw [processStream_clean _ _ _ _ h2, any_interrupt_eq_false _ h1]
    simp
  · simp [promptCount, promptCount_renderTrace]
  · simp [engineCallCount, engineCallCount_renderTrace]

/-- C5: with interactive mode off and a pause (interrupt-status event)
observed in the stream, the driver terminates after that pass with
zero decision-prompt invocations and zero resume calls, and the async
driver behaves identically. -/
theorem C5_non_interactive_pause_stops (fuel : Nat) (engine : InputData → List RawEvent)
    (loads : String → Except String JValue) (userInput : Nat → Int × String)
    (message : String) (verbose : Bool)
    (h1 : (engine (.fresh message)).any (fun c => statusIs "interrupt" c) = true)
    (h2 : streamOk verbose (engine (.fresh message)) = true) :
    run_sync_graph (fuel + 1) engine loads userInput message false verbose =
      (.engineCall (.fresh message) :: renderTrace verbose (engine (.fresh message)),
       .completed)
    ∧ promptCount
        (.engineCall (.fresh message) :: renderTrace verbose (engine (.fresh message))) = 0
    ∧ resumeCalls
        (.engineCall (.fresh message) :: renderTrace verbose (engine (.fresh message))) = []
    ∧ run_async_graph (fuel + 1) engine loads userInput message false verbose =
        run_sync_graph (fuel + 1) engine loads userInput message false verbose := by
  refine ⟨?_, ?_, ?_, run_async_eq_run_sync _ _ _ _ _ _ _⟩
  · simp only [run_sync_graph, prepare_agent_input, syncLoop]
    rw [processStream_clean _ _ _ _ h2]
    simp [h1]
  · simp [promptCount, promptCount_renderTrace]
  · simp [resumeCalls, resumeCalls_renderTrace]

/-- C3: with interactive mode on, when the fresh-message stream ends
with exactly one interrupt-status event and the resumed stream pauses
no further, the driver invokes the decision prompt exactly once —
after the first stream is fully rendered — and issues exactly one
resume call, whose input is the one-element decision batch `[d]` built
from the prompt's Decision `d`; identically for the async driver. -/
theorem C3_single_interrupt_prompt_once_resume_once (fuel : Nat)
    (engine : InputData → List RawEvent) (loads : String → Except String JValue)
    (userInput : Nat → Int × String) (message : String) (verbose : Bool)
    (pre : List RawEvent) (e : RawEvent) (s1 : List RawEvent)
    (pOps : List RenderOp) (d : JValue)
    (h0 : engine (.fresh message) = pre ++ [e])
    (h1 : noInterrupt pre = true)
    (h2 : statusIs "interrupt" e = true)
    (h3 : streamOk verbose (pre ++ [e]) = true)
    (h4 : handle_interrupt_input loads (userInput 0).1 (userInput 0).2
            (dictGetD e "interrupt" (.obj [])) = .ok (pOps, .decision d))
    (h5 : engine (.resume [d]) = s1)
    (h6 : noInterrupt s1 = true)
    (h7 : streamOk verbose s1 = true) :
    run_sync_graph (fuel + 2) engine loads userInput message true verbose =
      (.engineCall (.fresh message) ::
         (renderTrace verbose (pre ++ [e]) ++
          (.promptCall (dictGetD e "interrupt" (.obj [])) pOps ::
           .engineCall (.resume [d]) :: renderTrace verbose s1)),
       .completed)
    ∧ promptCount
        (.engineCall (.fresh message) ::
           (renderTrace verbose (pre ++ [e]) ++
            (.promptCall (dictGetD e "interrupt" (.obj [])) pOps ::
             .engineCall (.resume [d]) :: renderTrace verbose s1))) = 1
    ∧ resumeCalls
        (.engineCall (.fresh message) ::
           (renderTrace verbose (pre ++ [e]) ++
            (.promptCall (dictGetD e "interrupt" (.obj [])) pOps ::
             .engineCall (.resume [d]) :: renderTrace verbose s1))) = [.resume [d]]
    ∧ run_async_graph (fuel + 2) engine loads userInput message true verbose =
        run_sync_graph (fuel + 2) engine loads userInput message true verbose := by
  have hint : lastIntData .null (pre ++ [e]) = dictGetD e "interrupt" (.obj []) := by
    rw [lastIntData_append, lastIntData_noInterrupt pre .null h1]
    simp [lastIntData, h2]
  have hany : ((pre ++ [e]).any fun c => statusIs "interrupt" c) = true := by
    simp [List.any_append, any_interrupt_eq_false pre h1, h2]
  refine ⟨?_, ?_, ?_, run_async_eq_run_sync _ _ _ _ _ _ _⟩
  · simp only [run_sync_graph, prepare_agent_input, syncLoop]
    rw [h0, processStream_clean _ _ _ _ h3, hany, hint]
    simp only [Bool.or_true, Bool.true_and, if_true]
    rw [h4]
    simp only [prepare_agent_input, syncLoop]
    rw [h5, processStream_clean _ _ _ _ h7, any_interrupt_eq_false _ h6]
    simp
  · simp [promptCount, promptCount_append, promptCount_renderTrace]
  · simp [resumeCalls, resumeCalls_append, resumeCalls_renderTrace]

/-- Concrete interrupt-status event used by the driver witnesses. -/
def wIntEvent : RawEvent := [("status", .str "interrupt"), ("interrupt", .obj [])]

/-- Concrete complete-status event used by the driver witnesses. -/
def wCompleteEvent : RawEvent := [("status", .str "complete")]

/-- The approve-all Decision value. -/
def wApprove : JValue := .obj [("type", .str "approve")]

/-- Concrete engine: the fresh stream ends in one interrupt, the
resumed stream completes. -/
def wEngineInt : InputData → List RawEvent
  | .fresh _ => [wIntEvent]
  | .resume _ => [wCompleteEvent]

/-- Concrete engine with an interrupt-free stream. -/
def wEngineNoInt : InputData → List RawEvent :=
  fun _ => [wCompleteEvent]

/-- Concrete `json.loads` stand-in that always fails to decode. -/
def wLoads : String → Except String JValue :=
  fun _ => .error "Expecting value: line 1 column 1 (char 0)"

/-- Concrete operator input: always choice 1, empty free-form text. -/
def wUser : Nat → Int × String := fun _ => (1, "")

theorem C3_single_interrupt_prompt_once_resume_once_witness :
    wEngineInt (.fresh "hi") = [] ++ [wIntEvent]
    ∧ noInterrupt [] = true
    ∧ statusIs "interrupt" wIntEvent = true
    ∧ streamOk false ([] ++ [wIntEvent]) = true
    ∧ handle_interrupt_input wLoads (wUser 0).1 (wUser 0).2
        (dictGetD wIntEvent "interrupt" (.obj [])) = .ok (menuOps, .decision wApprove)
    ∧ wEngineInt (.resume [wApprove]) = [wCompleteEvent]
    ∧ noInterrupt [wCompleteEvent] = true
    ∧ streamOk false [wCompleteEvent] = true
    ∧ (run_sync_graph 2 wEngineInt wLoads wUser "hi" true false =
        (.engineCall (.fresh "hi") ::
           (renderTrace false ([] ++ [wIntEvent]) ++
            (.promptCall (dictGetD wIntEvent "interrupt" (.obj [])) menuOps ::
             .engineCall (.resume [wApprove]) :: renderTrace false [wCompleteEvent])),
         .completed)
       ∧ promptCount
           (.engineCall (.fresh "hi") ::
              (renderTrace false ([] ++ [wIntEvent]) ++
               (.promptCall (dictGetD wIntEvent "interrupt" (.obj [])) menuOps ::
                .engineCall (.resume [wApprove]) :: renderTrace false [wCompleteEvent]))) = 1
       ∧ resumeCalls
           (.engineCall (.fresh "hi") ::
              (renderTrace false ([] ++ [wIntEvent]) ++
               (.promptCall (dictGetD wIntEvent "interrupt" (.obj [])) menuOps ::
                .engineCall (.resume [wApprove]) :: renderTrace false [wCompleteEvent]))) =
           [.resume [wApprove]]
       ∧ run_async_graph 2 wEngineInt wLoads wUser "hi" true false =
           run_sync_graph 2 wEngineInt wLoads wUser "hi" true false) :=
  ⟨rfl, rfl, rfl, rfl, rfl, rfl, rfl, rfl,
   C3_single_interrupt_prompt_once_resume_once 0 wEngineInt wLoads wUser "hi" false
     [] wIntEvent [wCompleteEvent] menuOps wApprove rfl rfl rfl rfl rfl rfl rfl rfl⟩

theorem C4_no_interrupt_single_pass_witness :
    noInterrupt (wEngineNoInt (.fresh "hi")) = true
    ∧ streamOk false (wEngineNoInt (.fresh "hi")) = true
    ∧ (run_sync_graph 1 wEngineNoInt wLoads wUser "hi" true false =
        (.engineCall (.fresh "hi") :: renderTrace false (wEngineNoInt (.fresh "hi")),
         .completed)
       ∧ promptCount
           (.engineCall (.fresh "hi") :: renderTrace false (wEngineNoInt (.fresh "hi"))) = 0
       ∧ engineCallCount
           (.engineCall (.fresh "hi") :: renderTrace false (wEngineNoInt (.fresh "hi"))) = 1
       ∧ run_async_graph 1 wEngineNoInt wLoads wUser "hi" true false =
           run_sync_graph 1 wEngineNoInt wLoads wUser "hi" true false) :=
  ⟨rfl, rfl, C4_no_interrupt_single_pass 0 wEngineNoInt wLoads wUser "hi" true false rfl rfl⟩

theorem C5_non_interactive_pause_stops_witness :
    ((wEngineInt (.fresh "hi")).any fun c => statusIs "interrupt" c) = true
    ∧ streamOk false (wEngineInt (.fresh "hi")) = true
    ∧ (run_sync_graph 1 wEngineInt wLoads wUser "hi" false false =
        (.engineCall (.fresh "hi") :: renderTrace false (wEngineInt (.fresh "hi")),
         .completed)
       ∧ promptCount
           (.engineCall (.fresh "hi") :: renderTrace false (wEngineInt (.fresh "hi"))) = 0
       ∧ resumeCalls
           (.engineCall (.fresh "hi") :: renderTrace false (wEngineInt (.fresh "hi"))) = []
       ∧ run_async_graph 1 wEngineInt wLoads wUser "hi" false false =
           run_sync_graph 1 wEngineInt wLoads wUser "hi" false false) :=
  ⟨rfl, rfl, C5_non_interactive_pause_stops 0 wEngineInt wLoads wUser "hi" false rfl rfl⟩

/-- C6: when the operator chooses option 3 (custom decision) and the
supplied text fails to decode as JSON, `handle_interrupt_input` prints
the parse error and returns the Decision `{"type": "reject"}` — the
decode failure never propagates to the caller. -/
theorem C6_custom_decision_parse_failure_downgrades
    (loads : String → Except String JValue) (jsonText : String) (emsg : String)
    (fs : List (String × JValue))
    (h : loads jsonText = .error emsg) :
    handle_interrupt_input loads 3 jsonText (.obj fs) =
      .ok (menuOps ++ [jsonPromptOp, .text ("[red]Invalid JSON: " ++ emsg ++ "[/red]") true],
           .decision (.obj [("type", .str "reject")])) := by
  simp [handle_interrupt_input, pyGet, h]

theorem C6_custom_decision_parse_failure_downgrades_witness :
    wLoads "not valid json" = .error "Expecting value: line 1 column 1 (char 0)"
    ∧ handle_interrupt_input wLoads 3 "not valid json" (.obj []) =
        .ok (menuOps ++
               [jsonPromptOp,
                .text "[red]Invalid JSON: Expecting value: line 1 column 1 (char 0)[/red]" true],
             .decision (.obj [("type", .str "reject")])) :=
  ⟨rfl, C6_custom_decision_parse_failure_downgrades wLoads "not valid json"
          "Expecting value: line 1 column 1 (char 0)" [] rfl⟩

/-- C9: every prompt choice other than 1, 2 or 3 — not only the
documented exit choice 4 — falls through to `sys.exit(0)`: a hard
process exit with status 0, never a re-prompt or an error. -/
theorem C9_any_other_choice_exits
    (loads : String → Except String JValue) (jsonText : String)
    (fs : List (String × JValue)) (choice : Int)
    (h1 : choice ≠ 1) (h2 : choice ≠ 2) (h3 : choice ≠ 3) :
    handle_interrupt_input loads choice jsonText (.obj fs) =
      .ok (menuOps, .exited 0) := by
  simp [handle_interrupt_input, pyGet, h1, h2, h3]

theorem C9_any_other_choice_exits_witness :
    ((5 : Int) ≠ 1 ∧ (5 : Int) ≠ 2 ∧ (5 : Int) ≠ 3
      ∧ handle_interrupt_input wLoads 5 "" (.obj []) = .ok (menuOps, .exited 0))
    ∧ ((0 : Int) ≠ 1 ∧ (0 : Int) ≠ 2 ∧ (0 : Int) ≠ 3
      ∧ handle_interrupt_input wLoads 0 "" (.obj []) = .ok (menuOps, .exited 0)) :=
  ⟨⟨by decide, by decide, by decide,
    C9_any_other_choice_exits wLoads "" [] 5 (by decide) (by decide) (by decide)⟩,
   ⟨by decide, by decide, by decide,
    C9_any_other_choice_exits wLoads "" [] 0 (by decide) (by decide) (by decide)⟩⟩

theorem dictGet_cons (key : String) (val : JValue) (l : RawEvent) (k2 : String) :
    dictGet ((key, val) :: l) k2 = if key = k2 then some val else dictGet l k2 := by
  by_cases h : key = k2
  · simp [dictGet, List.find?_cons_of_pos, h]
  · simp only [if_neg h]
    show (match List.find? (fun p => p.1 == k2) ((key, val) :: l) with
          | some p => some p.2
          | none => none) = dictGet l k2
    rw [List.find?_cons_of_neg]
    · rfl
    · simp [h]

theorem eraseKey_cons (key : String) (val : JValue) (l : RawEvent) (k : String) :
    eraseKey ((key, val) :: l) k =
      if key = k then eraseKey l k else (key, val) :: eraseKey l k := by
  by_cases h : key = k <;> simp [eraseKey, List.filter_cons, h]

theorem dictGet_eraseKey (d : RawEvent) (k k2 : String) (hne : k2 ≠ k) :
    dictGet (eraseKey d k) k2 = dictGet d k2 := by
  induction d with
  | nil => rfl
  | cons p rest ih =>
    rcases p with ⟨key, val⟩
    rw [eraseKey_cons, dictGet_cons]
    by_cases hp : key = k
    · have hq : ¬key = k2 := fun h => hne (by rw [← h, hp])
      rw [if_pos hp, if_neg hq, ih]
    · rw [if_neg hp, dictGet_cons]
      by_cases hq : key = k2
      · rw [if_pos hq, if_pos hq]
      · rw [if_neg hq, if_neg hq, ih]

theorem dictGetD_eraseKey (d : RawEvent) (k k2 : String) (dflt : JValue) (hne : k2 ≠ k) :
    dictGetD (eraseKey d k) k2 dflt = dictGetD d k2 dflt := by
  simp [dictGetD, dictGet_eraseKey d k k2 hne]

theorem statusIs_eraseKey (t : String) (d : RawEvent) (k : String) (hne : k ≠ "status") :
    statusIs t (eraseKey d k) = statusIs t d := by
  simp [statusIs, dictGet_eraseKey d k "status" (fun h => hne h.symm)]

/-- C10: when a streaming-status event carries more than one of the
payload keys `chunk`, `tool_calls`, `todo_list`, exactly one payload is
rendered, by the fixed priority chunk, then tool_calls, then
todo_list: with `chunk` present the output is the text rendering and
is unchanged by deleting the two lower-priority keys; with `chunk`
absent and `tool_calls` present the output is unchanged by deleting
`todo_list`. -/
theorem C10_streaming_payload_priority (d : RawEvent) (v : Bool)
    (hst : statusIs "streaming" d = true) :
    ((dictGet d "chunk").isSome = true →
       print_chunk d v = .ok (chunkTextOps d v)
       ∧ print_chunk d v = print_chunk (eraseKey (eraseKey d "tool_calls") "todo_list") v)
    ∧ ((dictGet d "chunk").isSome = false → (dictGet d "tool_calls").isSome = true →
       print_chunk d v = print_chunk (eraseKey d "todo_list") v) := by
  constructor
  · intro hc
    have e1 : print_chunk d v = .ok (chunkTextOps d v) := by
      simp [print_chunk, hst, hc]
    have hst2 : statusIs "streaming" (eraseKey (eraseKey d "tool_calls") "todo_list") = true := by
      rw [statusIs_eraseKey _ _ _ (by decide), statusIs_eraseKey _ _ _ (by decide)]
      exact hst
    have hc2 : (dictGet (eraseKey (eraseKey d "tool_calls") "todo_list") "chunk").isSome = true := by
      rw [dictGet_eraseKey _ _ _ (by decide), dictGet_eraseKey _ _ _ (by decide)]
      exact hc
    have e2 : print_chunk (eraseKey (eraseKey d "tool_calls") "todo_list") v =
        .ok (chunkTextOps (eraseKey (eraseKey d "tool_calls") "todo_list") v) := by
      simp [print_chunk, hst2, hc2]
    have e3 : chunkTextOps (eraseKey (eraseKey d "tool_calls") "todo_list") v =
        chunkTextOps d v := by
      have k1 : dictGetD (eraseKey (eraseKey d "tool_calls") "todo_list") "chunk" .null =
          dictGetD d "chunk" .null := by
        rw [dictGetD_eraseKey _ _ _ _ (by decide), dictGetD_eraseKey _ _ _ _ (by decide)]
      have k2 : dictGetD (eraseKey (eraseKey d "tool_calls") "todo_list") "node"
            (.str "unknown") = dictGetD d "node" (.str "unknown") := by
        rw [dictGetD_eraseKey _ _ _ _ (by decide), dictGetD_eraseKey _ _ _ _ (by decide)]
      simp [chunkTextOps, k1, k2]
    exact ⟨e1, by rw [e1, e2, e3]⟩
  · intro hc htc
    have hst2 : statusIs "streaming" (eraseKey d "todo_list") = true := by
      rw [statusIs_eraseKey _ _ _ (by decide)]; exact hst
    have hc2 : (dictGet (eraseKey d "todo_list") "chunk").isSome = false := by
      rw [dictGet_eraseKey _ _ _ (by decide)]; exact hc
    have htc2 : (dictGet (eraseKey d "todo_list") "tool_calls").isSome = true := by
      rw [dictGet_eraseKey _ _ _ (by decide)]; exact htc
    have k1 : dictGetD (eraseKey d "todo_list") "tool_calls" .null =
        dictGetD d "tool_calls" .null := by
      rw [dictGetD_eraseKey _ _ _ _ (by decide)]
    have k2 : dictGetD (eraseKey d "todo_list") "node" (.str "unknown") =
        dictGetD d "node" (.str "unknown") := by
      rw [dictGetD_eraseKey _ _ _ _ (by decide)]
    simp [print_chunk, hst, hc, htc, hst2, hc2, htc2, k1, k2]

/-- Streaming event carrying all three payload keys. -/
def wAllPayloads : RawEvent :=
  [("status", .str "streaming"), ("chunk", .str "hi"),
   ("tool_calls", .arr [.obj [("name", .str "t")]]),
   ("todo_list", .arr [.obj [("status", .str "pending"), ("content", .str "x")]])]

/-- Streaming event carrying `tool_calls` and `todo_list` but no
`chunk`. -/
def wToolAndTodo : RawEvent :=
  [("status", .str "streaming"),
   ("tool_calls", .arr [.obj [("name", .str "t")]]),
   ("todo_list", .arr [.obj [("status", .str "pending"), ("content", .str "x")]])]

theorem C10_streaming_payload_priority_witness :
    statusIs "streaming" wAllPayloads = true
    ∧ (dictGet wAllPayloads "chunk").isSome = true
    ∧ print_chunk wAllPayloads false = .ok (chunkTextOps wAllPayloads false)
    ∧ print_chunk wAllPayloads false =
        print_chunk (eraseKey (eraseKey wAllPayloads "tool_calls") "todo_list") false
    ∧ statusIs "streaming" wToolAndTodo = true
    ∧ (dictGet wToolAndTodo "chunk").isSome = false
    ∧ (dictGet wToolAndTodo "tool_calls").isSome = true
    ∧ print_chunk wToolAndTodo false = print_chunk (eraseKey wToolAndTodo "todo_list") false :=
  ⟨rfl, rfl,
   ((C10_streaming_payload_priority wAllPayloads false rfl).1 rfl).1,
   ((C10_streaming_payload_priority wAllPayloads false rfl).1 rfl).2,
   rfl, rfl, rfl,
   (C10_streaming_payload_priority wToolAndTodo false rfl).2 rfl rfl⟩

/-- The structured block rendered for one tool call: its id (default
`"N/A"`), its name, its argument payload pretty-printed as JSON with
insertion-order keys and 2-space indentation, and the node name only
in verbose mode. -/
def toolBlock (v : Bool) (node : JValue) (tc : JValue) : RenderOp :=
  .toolTable ("Tool Call: " ++ pyStr (jGetD tc "name" .null))
    ([("ID", pyStr (jGetD tc "id" (.str "N/A"))),
      ("Name", pyStr (jGetD tc "name" .null)),
      ("Args", json_dumps (jGetD tc "args" (.obj [])) 2)] ++
     (if v then [("Node", pyStr node)] else []))

theorem toolCallTable_ok (v : Bool) (node tc : JValue) (h : toolCallOk tc = true) :
    toolCallTable v node tc = .ok (toolBlock v node tc) := by
  cases tc with
  | obj fs =>
    simp only [toolCallOk] at h
    cases hn : dictGet fs "name" with
    | none => rw [hn] at h; simp at h
    | some nm =>
      simp [toolCallTable, pySub, pyGet, hn, toolBlock, jGetD, dictGetD]
  | null => simp [toolCallOk] at h
  | bool b => simp [toolCallOk] at h
  | num n => simp [toolCallOk] at h
  | str s => simp [toolCallOk] at h
  | arr xs => simp [toolCallOk] at h

theorem toolCallTables_ok (v : Bool) (node : JValue) (xs : List JValue)
    (h : xs.all toolCallOk = true) :
    toolCallTables v node xs = .ok (xs.map (toolBlock v node)) := by
  induction xs with
  | nil => rfl
  | cons tc rest ih =>
    simp only [List.all_cons, Bool.and_eq_true] at h
    obtain ⟨h1, h2⟩ := h
    simp [toolCallTables, toolCallTable_ok v node tc h1, ih h2]

/-- C8: a streaming event carrying a `tool_calls` list renders one
structured block per call, each containing the call's id, name and
argument payload pretty-printed as JSON (insertion-order keys, 2-space
indent), with the node name included only in verbose mode. -/
theorem C8_tool_calls_rendered (d : RawEvent) (v : Bool) (calls : List JValue)
    (hst : statusIs "streaming" d = true)
    (hnc : (dictGet d "chunk").isSome = false)
    (htc : dictGet d "tool_calls" = some (.arr calls))
    (hok : calls.all toolCallOk = true) :
    print_chunk d v = .ok (calls.map (toolBlock v (dictGetD d "node" (.str "unknown")))) := by
  have h1 : (dictGet d "tool_calls").isSome = true := by rw [htc]; rfl
  have h2 : dictGetD d "tool_calls" .null = .arr calls := by simp [dictGetD, htc]
  simp [print_chunk, hst, hnc, h1, h2, pyIter, toolCallTables_ok v _ calls hok]

theorem C8_tool_calls_rendered_witness :
    statusIs "streaming" wToolAndTodo = true
    ∧ (dictGet wToolAndTodo "chunk").isSome = false
    ∧ dictGet wToolAndTodo "tool_calls" = some (.arr [.obj [("name", .str "t")]])
    ∧ ([JValue.obj [("name", .str "t")]].all toolCallOk) = true
    ∧ print_chunk wToolAndTodo true =
        .ok ([JValue.obj [("name", .str "t")]].map
               (toolBlock true (dictGetD wToolAndTodo "node" (.str "unknown")))) :=
  ⟨rfl, rfl, rfl, rfl,
   C8_tool_calls_rendered wToolAndTodo true [.obj [("name", .str "t")]] rfl rfl rfl rfl⟩

theorem statusIs_eq_get (s : String) (c : RawEvent) (h : statusIs s c = true) :
    dictGet c "status" = some (.str s) := by
  unfold statusIs at h
  cases hg : dictGet c "status" with
  | none => rw [hg] at h; simp at h
  | some jv =>
    cases jv with
    | str t =>
      rw [hg] at h
      simp at h
      rw [h]
    | null => rw [hg] at h; simp at h
    | bool b => rw [hg] at h; simp at h
    | num n => rw [hg] at h; simp at h
    | arr xs => rw [hg] at h; simp at h
    | obj fs => rw [hg] at h; simp at h

/-- The distinct error block rendered for an error-status event. -/
def errorPanel (c : RawEvent) : RenderOp :=
  .panel ("[bold red]" ++ pyStr (dictGetD c "error" (.str "Unknown error")) ++ "[/bold red]")
    "Error" "red"

theorem print_chunk_error_panel (c : RawEvent) (v : Bool) (h : statusIs "error" c = true) :
    print_chunk c v = .ok [errorPanel c] := by
  have hget := statusIs_eq_get _ _ h
  have h1 : statusIs "streaming" c = false := by simp [statusIs, hget]
  have h2 : statusIs "interrupt" c = false := by simp [statusIs, hget]
  have h3 : statusIs "complete" c = false := by simp [statusIs, hget]
  simp [print_chunk, h1, h2, h3, h, errorPanel]

theorem processStream_append (v : Bool) (a b : List RawEvent) (h : Bool) (i : JValue) :
    processStream v (a ++ b) h i =
      (match processStream v a h i with
       | (t1, .error e) => (t1, .error e)
       | (t1, .ok hi2) =>
         match processStream v b hi2.1 hi2.2 with
         | (t2, r) => (t1 ++ t2, r)) := by
  induction a generalizing h i with
  | nil =>
    cases hb : processStream v b h i with
    | mk t2 r => simp [processStream, hb]
  | cons c rest ih =>
    simp only [List.cons_append, processStream]
    cases hpc : print_chunk c v with
    | error e => rfl
    | ok ops =>
      simp only [List.append_eq]
      rw [ih]
      cases h1 : processStream v rest (h || statusIs "interrupt" c)
          (if statusIs "interrupt" c then dictGetD c "interrupt" (.obj []) else i) with
      | mk t1 r1 =>
        cases r1 with
        | error e => rfl
        | ok hi2 =>
          cases h2 : processStream v b hi2.1 hi2.2 with
          | mk t2 r2 => rfl

/-- Loops over engines that agree on all resume inputs coincide from
any resume input on (the loop only ever re-enters with resume
inputs). -/
theorem syncLoop_resume_congr (E E' : InputData → List RawEvent)
    (loads : String → Except String JValue) (userInput : Nat → Int × String)
    (interactive verbose : Bool)
    (hagree : ∀ ds, E' (.resume ds) = E (.resume ds)) :
    ∀ fuel pIdx ds, syncLoop E' loads userInput interactive verbose fuel pIdx (.resume ds) =
      syncLoop E loads userInput interactive verbose fuel pIdx (.resume ds) := by
  intro fuel
  induction fuel with
  | zero => intro pIdx ds; rfl
  | succ n ih =>
    intro pIdx ds
    simp only [syncLoop, hagree, prepare_agent_input, ih]

/-- C7: an error-status event is rendered as a distinct error block
but is display-only for control flow: inserting such an event anywhere
into the fresh stream changes neither the driver outcome, nor the
number of decision-prompt invocations, nor the resume calls — the
loop's continue/exit decision depends only on stream exhaustion, the
interrupt flag and the interactive flag. -/
theorem C7_error_event_display_only (c : RawEvent) (v : Bool)
    (E E' : InputData → List RawEvent) (loads : String → Except String JValue)
    (userInput : Nat → Int × String) (message : String) (interactive : Bool) (fuel : Nat)
    (s1 s2 : List RawEvent)
    (hc : statusIs "error" c = true)
    (hE : E (.fresh message) = s1 ++ s2)
    (hE' : E' (.fresh message) = s1 ++ c :: s2)
    (hagree : ∀ ds, E' (.resume ds) = E (.resume ds)) :
    print_chunk c v = .ok [errorPanel c]
    ∧ (run_sync_graph fuel E' loads userInput message interactive v).2 =
        (run_sync_graph fuel E loads userInput message interactive v).2
    ∧ promptCount (run_sync_graph fuel E' loads userInput message interactive v).1 =
        promptCount (run_sync_graph fuel E loads userInput message interactive v).1
    ∧ resumeCalls (run_sync_graph fuel E' loads userInput message interactive v).1 =
        resumeCalls (run_sync_graph fuel E loads userInput message interactive v).1 := by
  have hpanel := print_chunk_error_panel c v hc
  have hget := statusIs_eq_get _ _ hc
  have hnotint : statusIs "interrupt" c = false := by simp [statusIs, hget]
  refine ⟨hpanel, ?_⟩
  cases fuel with
  | zero => exact ⟨rfl, rfl, rfl⟩
  | succ n =>
    simp only [run_sync_graph, prepare_agent_input, syncLoop, hE, hE']
    rw [processStream_append v s1 (c :: s2) false .null,
        processStream_append v s1 s2 false .null]
    cases hps1 : processStream v s1 false .null with
    | mk t1 r1 =>
      cases r1 with
      | error e => exact ⟨rfl, rfl, rfl⟩
      | ok hi2 =>
        have hcs2 : processStream v (c :: s2) hi2.1 hi2.2 =
            (.rendered [errorPanel c] :: (processStream v s2 hi2.1 hi2.2).1,
             (processStream v s2 hi2.1 hi2.2).2) := by
          simp [processStream, hpanel, hnotint]
        dsimp only
        rw [hcs2]
        cases hps2 : processStream v s2 hi2.1 hi2.2 with
        | mk t2 r2 =>
          dsimp only
          cases r2 with
          | error e =>
            refine ⟨?_, ?_, ?_⟩ <;>
              simp [promptCount, promptCount_append, resumeCalls, resumeCalls_append]
          | ok hi3 =>
            obtain ⟨hasInt, intData⟩ := hi3
            by_cases hbr : (hasInt && interactive) = true
            · simp only [hbr, if_true]
              cases hh : handle_interrupt_input loads (userInput 0).1 (userInput 0).2 intData with
              | error e =>
                refine ⟨?_, ?_, ?_⟩ <;>
                  simp [promptCount, promptCount_append, resumeCalls, resumeCalls_append]
              | ok pr =>
                obtain ⟨ops, hr⟩ := pr
                cases hr with
                | exited code =>
                  refine ⟨?_, ?_, ?_⟩ <;>
                    simp [promptCount, promptCount_append, resumeCalls, resumeCalls_append]
                | decision d =>
                  simp only [prepare_agent_input]
                  rw [syncLoop_resume_congr E E' loads userInput interactive v hagree n 1 [d]]
                  cases hrec : syncLoop E loads userInput interactive v n 1 (.resume [d]) with
                  | mk tr2 out =>
                    refine ⟨?_, ?_, ?_⟩ <;>
                      simp [promptCount, promptCount_append, resumeCalls, resumeCalls_append]
            · rw [Bool.not_eq_true] at hbr
              simp only [hbr, Bool.false_eq_true, if_false]
              refine ⟨?_, ?_, ?_⟩ <;>
                simp [promptCount, promptCount_append, resumeCalls, resumeCalls_append]

/-- Concrete error-status event. -/
def wErrEvent : RawEvent := [("status", .str "error")]

/-- Engine with empty streams everywhere. -/
def wEngineEmpty : InputData → List RawEvent := fun _ => []

/-- Engine whose fresh stream is just the error event. -/
def wEngineErr : InputData → List RawEvent
  | .fresh _ => [wErrEvent]
  | .resume _ => []

theorem C7_error_event_display_only_witness :
    statusIs "error" wErrEvent = true
    ∧ wEngineEmpty (.fresh "hi") = [] ++ []
    ∧ wEngineErr (.fresh "hi") = [] ++ wErrEvent :: []
    ∧ (∀ ds, wEngineErr (.resume ds) = wEngineEmpty (.resume ds))
    ∧ (print_chunk wErrEvent false = .ok [errorPanel wErrEvent]
       ∧ (run_sync_graph 1 wEngineErr wLoads wUser "hi" true false).2 =
           (run_sync_graph 1 wEngineEmpty wLoads wUser "hi" true false).2
       ∧ promptCount (run_sync_graph 1 wEngineErr wLoads wUser "hi" true false).1 =
           promptCount (run_sync_graph 1 wEngineEmpty wLoads wUser "hi" true false).1
       ∧ resumeCalls (run_sync_graph 1 wEngineErr wLoads wUser "hi" true false).1 =
           resumeCalls (run_sync_graph 1 wEngineEmpty wLoads wUser "hi" true false).1) :=
  ⟨rfl, rfl, rfl, fun _ => rfl,
   C7_error_event_display_only wErrEvent false wEngineEmpty wEngineErr wLoads wUser "hi"
     true 1 [] [] rfl rfl rfl (fun _ => rfl)⟩

theorem iterAllOk_elim {ok : JValue → Bool} {v : JValue} (h : iterAllOk ok v = true) :
    ∃ xs, pyIter v = .ok xs ∧ xs.all ok = true := by
  unfold iterAllOk at h
  cases hit : pyIter v with
  | error e => rw [hit] at h; simp at h
  | ok xs =>
    rw [hit] at h
    exact ⟨xs, rfl, by simpa using h⟩

theorem todoRow_isOk (todo : JValue) (h : todoOk todo = true) :
    eOk (todoRow todo) = true := by
  cases todo with
  | obj fs =>
    simp only [todoOk] at h
    cases hs : dictGetD fs "status" (.str "pending") with
    | arr xs => rw [hs] at h; simp at h
    | obj gs => rw [hs] at h; simp at h
    | null => simp [todoRow, pyGet, hs, glyphFor, eOk]
    | bool b => simp [todoRow, pyGet, hs, glyphFor, eOk]
    | num n => simp [todoRow, pyGet, hs, glyphFor, eOk]
    | str s => simp [todoRow, pyGet, hs, glyphFor, eOk]
  | null => simp [todoOk] at h
  | bool b => simp [todoOk] at h
  | num n => simp [todoOk] at h
  | str s => simp [todoOk] at h
  | arr xs => simp [todoOk] at h

theorem todoRows_isOk (xs : List JValue) (h : xs.all todoOk = true) :
    eOk (todoRows xs) = true := by
  induction xs with
  | nil => rfl
  | cons todo rest ih =>
    simp only [List.all_cons, Bool.and_eq_true] at h
    obtain ⟨h1, h2⟩ := h
    have hr := todoRow_isOk todo h1
    cases ht : todoRow todo with
    | error e => rw [ht] at hr; simp [eOk] at hr
    | ok r =>
      have ihh := ih h2
      cases hrs : todoRows rest with
      | error e => rw [hrs] at ihh; simp [eOk] at ihh
      | ok rs => simp [todoRows, ht, hrs, eOk]

theorem actionLines_isOk (k : Nat) (a : JValue) (h : actionOk a = true) :
    eOk (actionLines k a) = true := by
  cases a with
  | obj fs =>
    simp only [actionOk, Bool.and_eq_true] at h
    obtain ⟨h1, h2⟩ := h
    cases ht : dictGet fs "tool" with
    | none => rw [ht] at h1; simp at h1
    | some tool =>
      cases hc : dictGet fs "tool_call_id" with
      | none => rw [hc] at h2; simp at h2
      | some cid => simp [actionLines, pySub, pyGet, ht, hc, eOk]
  | null => simp [actionOk] at h
  | bool b => simp [actionOk] at h
  | num n => simp [actionOk] at h
  | str s => simp [actionOk] at h
  | arr xs => simp [actionOk] at h

theorem actionsLines_isOk (xs : List JValue) (h : xs.all actionOk = true) :
    ∀ k, eOk (actionsLines k xs) = true := by
  induction xs with
  | nil => intro k; rfl
  | cons a rest ih =>
    intro k
    simp only [List.all_cons, Bool.and_eq_true] at h
    obtain ⟨h1, h2⟩ := h
    have ha := actionLines_isOk k a h1
    cases hl : actionLines k a with
    | error e => rw [hl] at ha; simp [eOk] at ha
    | ok ls =>
      have ihh := ih h2 (k + 1)
      cases hrs : actionsLines (k + 1) rest with
      | error e => rw [hrs] at ihh; simp [eOk] at ihh
      | ok more => simp [actionsLines, hl, hrs, eOk]

theorem allStrs_isOk (xs : List JValue) (h : xs.all isStrVal = true) :
    eOk (allStrs xs) = true := by
  induction xs with
  | nil => rfl
  | cons x rest ih =>
    simp only [List.all_cons, Bool.and_eq_true] at h
    obtain ⟨h1, h2⟩ := h
    cases x with
    | str s =>
      have ihh := ih h2
      cases hrs : allStrs rest with
      | error e => rw [hrs] at ihh; simp [eOk] at ihh
      | ok r => simp [allStrs, hrs, eOk]
    | null => simp [isStrVal] at h1
    | bool b => simp [isStrVal] at h1
    | num n => simp [isStrVal] at h1
    | arr ys => simp [isStrVal] at h1
    | obj fs => simp [isStrVal] at h1

theorem reviewLines_isOk (k : Nat) (cfg : JValue) (h : reviewOk cfg = true) :
    eOk (reviewLines k cfg) = true := by
  cases cfg with
  | obj fs =>
    simp only [reviewOk] at h
    cases hit : pyIter (dictGetD fs "allowed_decisions" (.arr [])) with
    | error e => rw [hit] at h; simp at h
    | ok xs =>
      rw [hit] at h
      have hall : xs.all isStrVal = true := by simpa using h
      have has := allStrs_isOk xs hall
      cases hstrs : allStrs xs with
      | error e => rw [hstrs] at has; simp [eOk] at has
      | ok strs => simp [reviewLines, pyGet, pyJoin, hit, hstrs, eOk]
  | null => simp [reviewOk] at h
  | bool b => simp [reviewOk] at h
  | num n => simp [reviewOk] at h
  | str s => simp [reviewOk] at h
  | arr ys => simp [reviewOk] at h

theorem reviewsLines_isOk (xs : List JValue) (h : xs.all reviewOk = true) :
    ∀ k, eOk (reviewsLines k xs) = true := by
  induction xs with
  | nil => intro k; rfl
  | cons cfg rest ih =>
    intro k
    simp only [List.all_cons, Bool.and_eq_true] at h
    obtain ⟨h1, h2⟩ := h
    have ha := reviewLines_isOk k cfg h1
    cases hl : reviewLines k cfg with
    | error e => rw [hl] at ha; simp [eOk] at ha
    | ok ls =>
      have ihh := ih h2 (k + 1)
      cases hrs : reviewsLines (k + 1) rest with
      | error e => rw [hrs] at ihh; simp [eOk] at ihh
      | ok more => simp [reviewsLines, hl, hrs, eOk]

theorem actionsPart_isOk (v : JValue) (h : truthyIterOk actionOk v = true) :
    eOk (actionsPart v) = true := by
  unfold truthyIterOk at h
  unfold actionsPart
  by_cases ht : pyTruthy v = true
  · rw [if_pos ht]
    rw [if_pos ht] at h
    obtain ⟨xs, hit, hall⟩ := iterAllOk_elim h
    rw [hit]
    have ha := actionsLines_isOk xs hall 1
    cases hl : actionsLines 1 xs with
    | error e => rw [hl] at ha; simp [eOk] at ha
    | ok ls => simp [hl, eOk]
  · rw [Bool.not_eq_true] at ht
    simp [ht, eOk]

theorem reviewsPart_isOk (v : JValue) (h : truthyIterOk reviewOk v = true) :
    eOk (reviewsPart v) = true := by
  unfold truthyIterOk at h
  unfold reviewsPart
  by_cases ht : pyTruthy v = true
  · rw [if_pos ht]
    rw [if_pos ht] at h
    obtain ⟨xs, hit, hall⟩ := iterAllOk_elim h
    rw [hit]
    have hr := reviewsLines_isOk xs hall 1
    cases hl : reviewsLines 1 xs with
    | error e => rw [hl] at hr; simp [eOk] at hr
    | ok ls => simp [hl, eOk]
  · rw [Bool.not_eq_true] at ht
    simp [ht, eOk]

theorem interruptPanel_isOk (c : RawEvent) (fs : List (String × JValue))
    (hd : dictGetD c "interrupt" (.obj []) = .obj fs)
    (ha : truthyIterOk actionOk (dictGetD fs "action_requests" (.arr [])) = true)
    (hr : truthyIterOk reviewOk (dictGetD fs "review_configs" (.arr [])) = true) :
    eOk (interruptPanel c) = true := by
  unfold interruptPanel
  rw [hd]
  simp only [pyGet]
  have hap := actionsPart_isOk _ ha
  cases h1 : actionsPart (dictGetD fs "action_requests" (.arr [])) with
  | error e => rw [h1] at hap; simp [eOk] at hap
  | ok lines1 =>
    have hrp := reviewsPart_isOk _ hr
    cases h2 : reviewsPart (dictGetD fs "review_configs" (.arr [])) with
    | error e => rw [h2] at hrp; simp [eOk] at hrp
    | ok lines2 => simp [eOk]

/-- C1 as stated is false: a malformed streaming event whose
`tool_calls` list contains a dict without a `name` key makes
`print_chunk` raise `KeyError` (line `Table(title=f"Tool Call:
{tool_call[name]}")` of the source), rather than render or silently
drop the event. -/
theorem C1_totality_counterexample :
    print_chunk [("status", .str "streaming"), ("tool_calls", .arr [.obj []])] false =
      .error "KeyError: name" := rfl

/-- C1 amended: `print_chunk` never raises on any raw event whose
recognized payloads are well-formed (`eventWellFormed`: streaming
`tool_calls` entries are dicts with a `name`; streaming `todo_list`
entries are dicts with hashable `status`; a truthy interrupt payload
is iterable with dicts carrying `tool`/`tool_call_id`, resp. joinable
`allowed_decisions`); it renders the event or — for an unrecognized
status — silently drops it, producing no output. -/
theorem C1_wellformed_never_raises (c : RawEvent) (v : Bool)
    (h : eventWellFormed c = true) :
    eOk (print_chunk c v) = true
    ∧ (statusIs "streaming" c = false → statusIs "interrupt" c = false →
       statusIs "complete" c = false → statusIs "error" c = false →
       print_chunk c v = .ok []) := by
  constructor
  · unfold eventWellFormed at h
    by_cases h1 : statusIs "streaming" c = true
    · by_cases hck : (dictGet c "chunk").isSome = true
      · simp [print_chunk, h1, hck, eOk]
      · have hck2 : (dictGet c "chunk").isSome = false := by simpa using hck
        by_cases htc : (dictGet c "tool_calls").isSome = true
        · have hI : iterAllOk toolCallOk (dictGetD c "tool_calls" .null) = true := by
            simpa [h1, hck2, htc] using h
          obtain ⟨xs, hit, hall⟩ := iterAllOk_elim hI
          simp [print_chunk, h1, hck2, htc, hit, toolCallTables_ok v _ xs hall, eOk]
        · have htc2 : (dictGet c "tool_calls").isSome = false := by simpa using htc
          by_cases htd : (dictGet c "todo_list").isSome = true
          · have hI : iterAllOk todoOk (dictGetD c "todo_list" .null) = true := by
              simpa [h1, hck2, htc2, htd] using h
            obtain ⟨xs, hit, hall⟩ := iterAllOk_elim hI
            have hrs := todoRows_isOk xs hall
            cases hr : todoRows xs with
            | error e => rw [hr] at hrs; simp [eOk] at hrs
            | ok rows => simp [print_chunk, h1, hck2, htc2, htd, hit, hr, eOk]
          · have htd2 : (dictGet c "todo_list").isSome = false := by simpa using htd
            simp [print_chunk, h1, hck2, htc2, htd2, eOk]
    · have h1f : statusIs "streaming" c = false := by simpa using h1
      by_cases h2 : statusIs "interrupt" c = true
      · have hM : (match dictGetD c "interrupt" (.obj []) with
              | .obj fs =>
                truthyIterOk actionOk (dictGetD fs "action_requests" (.arr [])) &&
                truthyIterOk reviewOk (dictGetD fs "review_configs" (.arr []))
              | _ => false) = true := by
          simpa [h1f, h2] using h
        cases hid : dictGetD c "interrupt" (.obj []) with
        | obj fs =>
          rw [hid] at hM
          have hM2 : (truthyIterOk actionOk (dictGetD fs "action_requests" (.arr [])) &&
              truthyIterOk reviewOk (dictGetD fs "review_configs" (.arr []))) = true := hM
          rw [Bool.and_eq_true] at hM2
          obtain ⟨ha, hr⟩ := hM2
          have hp := interruptPanel_isOk c fs hid ha hr
          cases hip : interruptPanel c with
          | error e => rw [hip] at hp; simp [eOk] at hp
          | ok p => simp [print_chunk, h1f, h2, hip, eOk]
        | null => rw [hid] at hM; simp at hM
        | bool b => rw [hid] at hM; simp at hM
        | num n => rw [hid] at hM; simp at hM
        | str s => rw [hid] at hM; simp at hM
        | arr xs => rw [hid] at hM; simp at hM
      · have h2f : statusIs "interrupt" c = false := by simpa using h2
        by_cases h3 : statusIs "complete" c = true
        · simp [print_chunk, h1f, h2f, h3, eOk]
        · have h3f : statusIs "complete" c = false := by simpa using h3
          by_cases h4 : statusIs "error" c = true
          · simp [print_chunk, h1f, h2f, h3f, h4, eOk]
          · have h4f : statusIs "error" c = false := by simpa using h4
            simp [print_chunk, h1f, h2f, h3f, h4f, eOk]
  · intro h1 h2 h3 h4
    simp [print_chunk, h1, h2, h3, h4]

/-- Event with an unrecognized status. -/
def wMysteryEvent : RawEvent := [("status", .str "mystery")]

theorem C1_wellformed_never_raises_witness :
    eventWellFormed wMysteryEvent = true
    ∧ eOk (print_chunk wMysteryEvent false) = true
    ∧ statusIs "streaming" wMysteryEvent = false
    ∧ statusIs "interrupt" wMysteryEvent = false
    ∧ statusIs "complete" wMysteryEvent = false
    ∧ statusIs "error" wMysteryEvent = false
    ∧ print_chunk wMysteryEvent false = .ok []
    ∧ eventWellFormed wAllPayloads = true
    ∧ eOk (print_chunk wAllPayloads false) = true :=
  ⟨rfl, (C1_wellformed_never_raises wMysteryEvent false rfl).1,
   rfl, rfl, rfl, rfl,
   (C1_wellformed_never_raises wMysteryEvent false rfl).2 rfl rfl rfl rfl,
   rfl, (C1_wellformed_never_raises wAllPayloads false rfl).1⟩
